import Mathlib

/-
Shallow embedding of `src/index.js` of the serverless-rust plugin
(class `RustPlugin`), together with theorems settling the frozen claims
about its specification.

Modelling conventions:
* JavaScript strings are Lean `String`; a possibly-`undefined` value of
  type T is `Option T`.
* JavaScript truthiness at the `||` defaulting sites: for strings, `""`
  and `undefined` are falsy; for booleans, `false` is falsy.  The helpers
  `jsOr`, `jsOrStr`, `jsOrB`, `jsOrOpt` model `a || b` at the value types
  the source actually uses at each site.
* `String.prototype.split` with a one-character separator splits on every
  occurrence and keeps empty segments (`"".split(".") = [""]`); this is
  `jsSplit`.  `split(/\s+/)` is modelled by `splitWhitespace`, which
  agrees with the regex split after the `.filter((i) => i)` step that the
  source always applies afterwards.
* External effects (child_process.spawnSync, fs reads/writes, process.env,
  os.homedir) are an explicit oracle `World`.  `spawnSync` never throws: it
  reports spawn errors through the `error` field of its result.
  `readFileSync` / `writeFileSync` / `mkdirSync` can throw; a thrown
  JavaScript exception is `Except.error`.
* `path.join` is modelled as `/`-concatenation (no normalisation is
  relevant to the claims); `path.resolve` is not modelled (the service
  path is taken as already resolved).
* The archive construction (AdmZip, entry `bootstrap`, mode 755) is
  opaque: no claim inspects archive contents, only the write succeeding
  or failing.
-/

namespace ServerlessRust

/-! ## Constants (src/index.js lines 13-18) -/

def DEFAULT_DOCKER_TAG : String := "0.2.7-rust-1.43.0"

def DEFAULT_DOCKER_IMAGE : String := "softprops/lambda-rust"

def RUST_RUNTIME : String := "rust"

def BASE_RUNTIME : String := "provided"

def MUSL_PLATFORMS : List String := ["darwin", "windows"]

/-! ## JavaScript value helpers -/

/-- Models `x || y` where `x` is a possibly-undefined string and `y` a string:
`undefined` and `""` are falsy. -/
def jsOr (x : Option String) (y : String) : String :=
  match x with
  | some s => if s = "" then y else s
  | none => y

/-- Models `x || y` for two plain strings. -/
def jsOrStr (x y : String) : String :=
  if x = "" then y else x

/-- Models `x || y` where `x` is a possibly-undefined boolean. -/
def jsOrB (x : Option Bool) (y : Bool) : Bool :=
  match x with
  | some b => b || y
  | none => y

/-- Models `x || y` where both sides are possibly-undefined strings
(the result may still be undefined). -/
def jsOrOpt (x y : Option String) : Option String :=
  match x with
  | some s => if s = "" then y else some s
  | none => y

/-- Models `String.prototype.split` with a one-character separator, on
character lists: splits at every occurrence, keeping empty segments, and
yields `[[]]` on the empty input. -/
def jsSplitList (sep : Char) : List Char → List (List Char)
  | [] => [[]]
  | c :: cs =>
    match jsSplitList sep cs with
    | [] => [[]]
    | h :: t => if c = sep then [] :: h :: t else (c :: h) :: t

/-- Models `s.split(sep)` for a one-character separator `sep`. -/
def jsSplit (sep : Char) (s : String) : List String :=
  (jsSplitList sep s.data).map String.mk

/-- Character-predicate variant of `jsSplitList`. -/
def jsSplitPList (p : Char → Bool) : List Char → List (List Char)
  | [] => [[]]
  | c :: cs =>
    match jsSplitPList p cs with
    | [] => [[]]
    | h :: t => if p c then [] :: h :: t else (c :: h) :: t

/-- Models `s.split(/\s+/)` up to empty segments, which every use in the
source subsequently removes with `.filter((i) => i)`. -/
def splitWhitespace (s : String) : List String :=
  (jsSplitPList Char.isWhitespace s.data).map String.mk

/-- Models `path.join a b` (no normalisation). -/
def pathJoin (a b : String) : String :=
  a ++ "/" ++ b

/-! ## Configuration (src/index.js lines 40-51, the `rust` blocks) -/

/-- A `rust` configuration block, global (`service.custom.rust`) or
per-function (`func.rust`): every recognised key, each possibly absent. -/
structure RustConfig where
  cargoFlags : Option String := none
  dockerTag : Option String := none
  dockerImage : Option String := none
  dockerless : Option Bool := none
  profile : Option String := none
  dockerPath : Option String := none
deriving Repr, DecidableEq

/-- Models `(x || {})` for a possibly-undefined `rust` block. -/
def orEmptyObj (x : Option RustConfig) : RustConfig :=
  x.getD {}

/-- `this.custom` after the constructor's
`Object.assign({cargoFlags:"",dockerTag:...,dockerImage:...,dockerless:false}, rust || {})`
(lines 40-49).  `Object.assign` copies every key present in the global
block, falsy values included, over the built-in defaults; keys with no
built-in default (`profile`, `dockerPath`) stay absent unless supplied. -/
structure Custom where
  cargoFlags : String
  dockerTag : String
  dockerImage : String
  dockerless : Bool
  profile : Option String := none
  dockerPath : Option String := none
deriving Repr, DecidableEq

/-- Models the constructor's merge of built-in defaults with the global
`service.custom.rust` block. -/
def mkCustom (rust : Option RustConfig) : Custom :=
  let r := orEmptyObj rust
  { cargoFlags := r.cargoFlags.getD ""
    dockerTag := r.dockerTag.getD DEFAULT_DOCKER_TAG
    dockerImage := r.dockerImage.getD DEFAULT_DOCKER_IMAGE
    dockerless := r.dockerless.getD false
    profile := r.profile
    dockerPath := r.dockerPath }

/-! ## Effective per-function values (the `||` chains at the use sites) -/

/-- Line 64-68: `((funcArgs || {}).cargoFlags || this.custom.cargoFlags || "")`. -/
def effCargoFlagsLocal (funcArgs : Option RustConfig) (custom : Custom) : String :=
  jsOr (orEmptyObj funcArgs).cargoFlags (jsOrStr custom.cargoFlags "")

/-- Line 164: `(funcArgs || {}).cargoFlags || this.custom.cargoFlags`.
The JavaScript result can be `undefined`; it is only ever consumed through
truthiness tests and template interpolation guarded by those tests, so
collapsing `undefined` to `""` is observation-equivalent. -/
def effCargoFlagsDocker (funcArgs : Option RustConfig) (custom : Custom) : String :=
  jsOr (orEmptyObj funcArgs).cargoFlags custom.cargoFlags

/-- Line 180: `(funcArgs || {}).dockerTag || this.custom.dockerTag`. -/
def effDockerTag (funcArgs : Option RustConfig) (custom : Custom) : String :=
  jsOr (orEmptyObj funcArgs).dockerTag custom.dockerTag

/-- Line 181: `(funcArgs || {}).dockerImage || this.custom.dockerImage`. -/
def effDockerImage (funcArgs : Option RustConfig) (custom : Custom) : String :=
  jsOr (orEmptyObj funcArgs).dockerImage custom.dockerImage

/-- Line 231: `(func.rust || {}).profile || this.custom.profile`. -/
def effProfile (funcRust : Option RustConfig) (custom : Custom) : Option String :=
  jsOrOpt (orEmptyObj funcRust).profile custom.profile

/-! ## Functions, service, plugin state -/

/-- One function entry of the service (the fields the plugin reads or
writes): declared handler, declared runtime, per-function `rust` block,
and the `package.artifact` location the plugin would assign. -/
structure Func where
  handler : String
  runtime : Option String := none
  rust : Option RustConfig := none
  packageArtifact : Option String := none
deriving Repr, DecidableEq

/-- The service data the plugin reads: provider name and default runtime,
the named function list, the global `custom.rust` block, and the service
path from the framework configuration. -/
structure Service where
  providerName : String
  providerRuntime : Option String := none
  functions : List (String × Func) := []
  customRust : Option RustConfig := none
  servicePath : String := ""
deriving Repr, DecidableEq

/-- The invocation options: `options.function` names a single function,
otherwise all functions are targeted. -/
structure Options where
  function : Option String := none
deriving Repr, DecidableEq

/-- Plugin state built by the constructor: the merged `custom` block and
`path.resolve(this.custom.dockerPath || this.servicePath)` (line 51;
`path.resolve` itself is not modelled). -/
structure Plugin where
  custom : Custom
  dockerPath : String
deriving Repr, DecidableEq

/-- Models the constructor (lines 29-59) as far as the build pass needs. -/
def mkPlugin (svc : Service) : Plugin :=
  let custom := mkCustom svc.customRust
  { custom, dockerPath := jsOr custom.dockerPath svc.servicePath }

/-- Line 210-212: `(func.rust || {}).dockerless || this.custom.dockerless`. -/
def buildLocally (func : Func) (custom : Custom) : Bool :=
  jsOrB (orEmptyObj func.rust).dockerless custom.dockerless

/-- Lines 194-200: the targeted function names. `if (this.options.function)`
is a truthiness test, so an empty name behaves like an absent one. -/
def functionsOf (svc : Service) (opts : Options) : List String :=
  match opts.function with
  | some n => if n = "" then svc.functions.map Prod.fst else [n]
  | none => svc.functions.map Prod.fst

/-- Models `service.getFunction(name)` over the service's function list. -/
def getFunction (svc : Service) (n : String) : Option Func :=
  svc.functions.lookup n

/-! ## HandlerParser (src/index.js lines 202-208, method `cargoBinary`) -/

/-- The object `{cargoPackage, binary}` returned by `cargoBinary`. -/
structure CargoBinaryResult where
  cargoPackage : String
  binary : String
deriving Repr, DecidableEq

/-- Lines 202-208:
`let [cargoPackage, binary] = func.handler.split("."); if (binary == undefined) binary = cargoPackage;`.
Array destructuring takes the first two segments; `split` never returns an
empty array, so `cargoPackage` is always the first segment.  The
`== undefined` test is false for the empty string, so an empty second
segment is kept. -/
def cargoBinary (handler : String) : CargoBinaryResult :=
  let parts := jsSplit '.' handler
  let cargoPackage := parts.headD ""
  match parts[1]? with
  | none => { cargoPackage, binary := cargoPackage }
  | some b => { cargoPackage, binary := b }

/-! ## External-process and file-system oracle -/

/-- The object returned by `spawnSync`: a spawn failure in `error`, the
exit status in `status` (`null`, i.e. `none`, when the process did not
run).  `spawnSync` itself never throws. -/
structure SpawnResult where
  error : Option String := none
  status : Option Int := none
deriving Repr, DecidableEq

/-- Models the JavaScript comparison `status > 0` where `status` may be
`null` (`null > 0` is `false`). -/
def statusGtZero : Option Int → Bool
  | some n => n > 0
  | none => false

/-- The executor outcome value the orchestrator inspects
(`res.error || res.status > 0`): either the `spawnSync` result passed
through, the empty object `{}` on success, or the packaging-failure
object `{err, status: 1}` built at lines 136-139 (note its I/O error
lives under the key `err`, not `error`). -/
structure BuildRes where
  error : Option String := none
  status : Option Int := none
  err : Option String := none
deriving Repr, DecidableEq

/-- The external world: process spawning, file system, environment
variables and the home directory.  Output routing (stdio inheritance) and
the environment object passed to `spawnSync` are not further modelled: no
claim depends on them. -/
structure World where
  spawn : String → List String → SpawnResult
  readFile : String → Except String String
  writeFile : String → String → Except String Unit
  mkdir : String → Except String Unit
  procEnv : String → Option String
  home : String

/-! ## LocalBuildExecutor (src/index.js lines 61-141, method `localBuild`) -/

/-- Lines 62-77: the `cargo` argument list
`[...defaultArgs, ...profileArgs, ...targetArgs, ...cargoFlags].filter((i) => i)`
with `defaultArgs = ["build", "-p", cargoPackage]`. -/
def localBuildArgs (custom : Custom) (plat : String) (funcArgs : Option RustConfig)
    (cargoPackage : String) (profile : Option String) : List String :=
  let defaultArgs := ["build", "-p", cargoPackage]
  let profileArgs := if profile ≠ some "dev" then ["--release"] else []
  let cargoFlags := splitWhitespace (effCargoFlagsLocal funcArgs custom)
  let targetArgs :=
    if MUSL_PLATFORMS.contains plat then ["--target", "x86_64-unknown-linux-musl"] else []
  (defaultArgs ++ profileArgs ++ targetArgs ++ cargoFlags).filter (fun i => i ≠ "")

/-- Lines 79-94: the per-OS linker environment overrides merged over
`process.env` (the merge target is not consumed elsewhere in the model). -/
def platformEnv (plat : String) (procRustflags : Option String) : List (String × String) :=
  if plat = "darwin" then
    [("RUSTFLAGS", procRustflags.getD "" ++ " -Clinker=x86_64-linux-musl-gcc"),
     ("TARGET_CC", "x86_64-linux-musl-gcc"),
     ("CC_x86_64_unknown_linux_musl", "x86_64-linux-musl-gcc")]
  else if plat = "windows" then
    [("RUSTFLAGS", procRustflags.getD "" ++ " -Clinker=rust-lld"),
     ("TARGET_CC", "rust-lld"),
     ("CC_x86_64_unknown_linux_musl", "rust-lld")]
  else []

/-- Lines 101-140: run `cargo`, and on success package the binary.
Control flow:
* toolchain failure (`buildResult.error || buildResult.status > 0`):
  the `spawnSync` result is returned as a value;
* `readFileSync` of the produced binary (line 119) stands outside any
  `try`, so its failure propagates as a thrown exception (`Except.error`);
* `mkdirSync` errors are swallowed (`try {...} catch {}`);
* `writeFileSync` failure is caught and returned as `{err, status: 1}`;
* full success returns `{}`. -/
def localBuild (w : World) (custom : Custom) (plat : String) (funcArgs : Option RustConfig)
    (cargoPackage binary : String) (profile : Option String) : Except String BuildRes :=
  let finalArgs := localBuildArgs custom plat funcArgs cargoPackage profile
  let _env := platformEnv plat (w.procEnv "RUSTFLAGS")
  let buildResult := w.spawn "cargo" finalArgs
  if buildResult.error.isSome || statusGtZero buildResult.status then
    .ok { error := buildResult.error, status := buildResult.status }
  else
    let executable0 := "target"
    let executable1 :=
      if MUSL_PLATFORMS.contains plat then pathJoin executable0 "x86_64-unknown-linux-musl"
      else executable0
    let executable := pathJoin executable1 (if profile ≠ some "dev" then "release" else "debug")
    match w.readFile (pathJoin executable binary) with
    | .error e => .error e
    | .ok contents =>
      let targetDir := pathJoin (pathJoin "target" "lambda")
        (if profile ≠ some "dev" then "release" else "debug")
      let _ := w.mkdir targetDir
      match w.writeFile (pathJoin targetDir (binary ++ ".zip")) contents with
      | .ok _ => .ok {}
      | .error e => .ok { err := some e, status := some 1 }

/-! ## ContainerBuildExecutor (src/index.js lines 143-192, method `dockerBuild`) -/

/-- Line 144: `process.env.CARGO_HOME || path.join(homedir(), ".cargo")`. -/
def cargoHomeOf (w : World) : String :=
  jsOr (w.procEnv "CARGO_HOME") (pathJoin w.home ".cargo")

/-- Lines 149-161: the fixed container arguments (mounts and the `BIN`
environment variable). -/
def dockerDefaultArgs (binary dockerPath cargoRegistry cargoDownloads : String) : List String :=
  ["run", "--rm", "-t",
   "-e", "BIN=" ++ binary,
   "-v", dockerPath ++ ":/code",
   "-v", cargoRegistry ++ ":/root/.cargo/registry",
   "-v", cargoDownloads ++ ":/root/.cargo/git"]

/-- Lines 164 and 169-175: the `CARGO_FLAGS` value — the resolved extra
flags with ` -p <package>` appended whenever `cargoPackage` is defined
(an empty-string package still gets the selector appended, matching the
`!= undefined` test). -/
def dockerCargoFlags (custom : Custom) (funcArgs : Option RustConfig)
    (cargoPackage : Option String) : String :=
  let cargoFlags0 := effCargoFlagsDocker funcArgs custom
  match cargoPackage with
  | some pkg => if cargoFlags0 ≠ "" then cargoFlags0 ++ " -p " ++ pkg else " -p " ++ pkg
  | none => cargoFlags0

/-- Lines 164-179 continued: the conditional environment-variable pushes. -/
def profileCargoEnvArgs (custom : Custom) (funcArgs : Option RustConfig)
    (cargoPackage : Option String) (profile : Option String) : List String :=
  let profilePush :=
    match profile with
    | some p => if p ≠ "" then ["-e", "PROFILE=" ++ p] else []
    | none => []
  let cargoFlags1 := dockerCargoFlags custom funcArgs cargoPackage
  let flagsPush := if cargoFlags1 ≠ "" then ["-e", "CARGO_FLAGS=" ++ cargoFlags1] else []
  profilePush ++ flagsPush

/-- Lines 149-187: the full container-runtime argument list
`[...defaultArgs, ...customArgs, image:tag].filter((i) => i)`, where
`customArgs` starts as the space-split `SLS_DOCKER_ARGS` tokens
(line 162; the `|| []` there is dead, `split` never yields a falsy value)
and then receives the conditional environment pushes. -/
def dockerBuildArgs (w : World) (custom : Custom) (dockerPath : String)
    (funcArgs : Option RustConfig) (cargoPackage : Option String) (binary : String)
    (profile : Option String) : List String :=
  let cargoHome := cargoHomeOf w
  let cargoRegistry := pathJoin cargoHome "registry"
  let cargoDownloads := pathJoin cargoHome "git"
  let defaultArgs := dockerDefaultArgs binary dockerPath cargoRegistry cargoDownloads
  let customArgs := jsSplit ' ' (jsOr (w.procEnv "SLS_DOCKER_ARGS") "")
    ++ profileCargoEnvArgs custom funcArgs cargoPackage profile
  let dockerTag := effDockerTag funcArgs custom
  let dockerImage := effDockerImage funcArgs custom
  (defaultArgs ++ customArgs ++ [dockerImage ++ ":" ++ dockerTag]).filter (fun i => i ≠ "")

/-- Lines 143-192: run the container CLI
(`process.env.SLS_DOCKER_CLI || "docker"`) synchronously and return the
`spawnSync` result as a value; this method performs no file I/O and never
throws. -/
def dockerBuild (w : World) (custom : Custom) (dockerPath : String)
    (funcArgs : Option RustConfig) (cargoPackage : Option String) (binary : String)
    (profile : Option String) : BuildRes :=
  let dockerCLI := jsOr (w.procEnv "SLS_DOCKER_CLI") "docker"
  let sr := w.spawn dockerCLI (dockerBuildArgs w custom dockerPath funcArgs cargoPackage binary profile)
  { error := sr.error, status := sr.status }

/-! ## Orchestrator (src/index.js lines 214-274, method `build`) -/

/-- Every identifier readable at src/index.js lines 233-235 (the executor
call inside `build`'s `forEach` callback), i.e. the declarations of every
enclosing scope plus the globals the module uses:
* the CommonJS wrapper parameters;
* the module-scope `const`s of lines 7-18, the function of line 20 and the
  class of line 28;
* globals referenced by the source (`process`, `Object`, `Error`,
  `parseInt`, `undefined`);
* `build`'s own locals `service` (line 215) and `rustFunctionsFound`
  (line 219);
* the callback's parameter `funcName` and its `const`s: `func`, `runtime`,
  the destructured names `cargoBinary` and `binary` of line 228, `profile`,
  `res`, `artifactPath`.
Line 228 destructures the property names `cargoBinary` and `binary` from
the parser result `{cargoPackage, binary}`; no scope declares an
identifier `cargoPackage`. -/
def buildScopeIdentifiers : List String :=
  ["require", "module", "exports", "__filename", "__dirname",
   "spawnSync", "homedir", "platform", "path", "AdmZip",
   "mkdirSync", "writeFileSync", "readFileSync",
   "DEFAULT_DOCKER_TAG", "DEFAULT_DOCKER_IMAGE", "RUST_RUNTIME", "BASE_RUNTIME",
   "NO_OUTPUT_CAPTURE", "MUSL_PLATFORMS", "includeInvokeHook", "RustPlugin",
   "process", "Object", "Error", "parseInt", "undefined",
   "service", "rustFunctionsFound",
   "funcName", "func", "runtime", "cargoBinary", "binary", "profile",
   "res", "artifactPath"]

/-- The exceptions the build pass can raise. -/
inductive BuildError where
  /-- Strict-mode read of an identifier with no binding in any enclosing
  scope. -/
  | referenceError (ident : String)
  /-- Property read on `undefined` (a nonexistent function name). -/
  | typeError
  /-- Line 240: `throw new Error(res.error)`. -/
  | buildFailed (errMsg : Option String)
  /-- Lines 268-272: no function carried the rust runtime. -/
  | noRustFunctions
deriving Repr, DecidableEq

/-- Lines 220-262, the body of `build`'s `forEach` callback for one
function name.  Returns the updated `rustFunctionsFound` flag or the
exception that aborts the pass.  On a function whose effective runtime is
the rust marker, the code reaches the executor ternary of lines 233-235,
whose argument expression names the identifier `cargoPackage`; the scope
membership test decides between reading a binding (no such branch exists:
the identifier list provably lacks it) and the strict-mode
`ReferenceError`.  The executor calls and the success path of lines
236-262 (artifact assignment, runtime rewrite) are therefore unreachable. -/
def buildFuncStep (w : World) (plugin : Plugin) (svc : Service) (found : Bool)
    (funcName : String) : Except BuildError Bool :=
  match getFunction svc funcName with
  | none => .error .typeError
  | some func =>
    let runtime := jsOrOpt func.runtime svc.providerRuntime
    if runtime ≠ some RUST_RUNTIME then .ok found
    else
      let _parsed := cargoBinary func.handler
      let _profile := effProfile func.rust plugin.custom
      let _world := w
      if h : "cargoPackage" ∈ buildScopeIdentifiers then absurd h (by decide)
      else .error (.referenceError "cargoPackage")

/-- The sequential `forEach` of line 220: a thrown exception propagates
and aborts the remaining iterations. -/
def buildLoop (w : World) (plugin : Plugin) (svc : Service) :
    Bool → List String → Except BuildError Bool
  | found, [] => .ok found
  | found, n :: rest =>
    match buildFuncStep w plugin svc found n with
    | .error e => .error e
    | .ok found' => buildLoop w plugin svc found' rest

/-- Lines 214-274, method `build`: skip silently on a non-aws provider;
iterate the targeted functions; afterwards rewrite the service-wide
default runtime (lines 264-266) and raise when no rust function was found
(lines 267-273).  Per-function service mutations (lines 256-261) occur
only beyond the unreachable executor call and so do not appear in any
reachable branch. -/
def build (w : World) (plugin : Plugin) (svc : Service) (opts : Options) :
    Except BuildError Service :=
  if svc.providerName ≠ "aws" then .ok svc
  else
    match buildLoop w plugin svc false (functionsOf svc opts) with
    | .error e => .error e
    | .ok found =>
      let svc1 :=
        if svc.providerRuntime = some RUST_RUNTIME then
          { svc with providerRuntime := some BASE_RUNTIME }
        else svc
      if !found then .error .noRustFunctions else .ok svc1

/-! ## Helper lemmas -/

theorem data_append (a b : String) : (a ++ b).data = a.data ++ b.data := rfl

theorem eq_empty_of_data_nil (a : String) (h : a.data = []) : a = "" := by
  cases a with
  | mk l => cases h; rfl

theorem append_ne_empty_left (a b : String) (ha : a ≠ "") : a ++ b ≠ "" := by
  intro h
  have hd : a.data ++ b.data = [] := by rw [← data_append, h]
  exact ha (eq_empty_of_data_nil a (List.append_eq_nil.mp hd).1)

theorem append_ne_empty_right (a b : String) (hb : b ≠ "") : a ++ b ≠ "" := by
  intro h
  have hd : a.data ++ b.data = [] := by rw [← data_append, h]
  exact hb (eq_empty_of_data_nil b (List.append_eq_nil.mp hd).2)

theorem jsSplitList_ne_nil (sep : Char) (l : List Char) : jsSplitList sep l ≠ [] := by
  induction l with
  | nil => simp [jsSplitList]
  | cons c cs ih =>
    simp only [jsSplitList]
    split
    · simp
    · split <;> simp

theorem jsSplitList_of_not_mem (sep : Char) (a : List Char) (ha : sep ∉ a) :
    jsSplitList sep a = [a] := by
  induction a with
  | nil => rfl
  | cons c cs ih =>
    simp only [List.mem_cons, not_or] at ha
    simp only [jsSplitList, ih ha.2]
    simp [Ne.symm ha.1]

theorem jsSplitList_append (sep : Char) (a b : List Char) (ha : sep ∉ a) :
    jsSplitList sep (a ++ sep :: b) = a :: jsSplitList sep b := by
  induction a with
  | nil =>
    simp only [List.nil_append, jsSplitList]
    cases h : jsSplitList sep b with
    | nil => exact absurd h (jsSplitList_ne_nil sep b)
    | cons hd tl => simp
  | cons c cs ih =>
    simp only [List.mem_cons, not_or] at ha
    simp only [List.cons_append, jsSplitList, List.append_eq]
    rw [ih ha.2]
    simp [Ne.symm ha.1]

theorem cargoBinary_two_segments (a b : String) (ha : '.' ∉ a.data) (hb : '.' ∉ b.data) :
    cargoBinary (a ++ "." ++ b) = { cargoPackage := a, binary := b } := by
  have hdata : (a ++ "." ++ b).data = a.data ++ '.' :: b.data := by
    simp [data_append]
  simp only [cargoBinary, jsSplit, hdata, jsSplitList_append '.' a.data b.data ha,
    jsSplitList_of_not_mem '.' b.data hb]
  rfl

theorem cargoBinary_no_sep (a : String) (ha : '.' ∉ a.data) :
    cargoBinary a = { cargoPackage := a, binary := a } := by
  simp only [cargoBinary, jsSplit, jsSplitList_of_not_mem '.' a.data ha]
  rfl

/-! ## C2 — HandlerParser behaviour -/

/-- C2, counterexample to the claim as stated: the parser has no failure
path at all.  The empty handler is accepted, yielding empty unit and
binary names rather than raising `MalformedHandler` (no such condition
exists in the source), and a handler with two separators keeps only the
first two segments, whereas a split at the first separator would yield
binary `"b.c"`. -/
theorem handlerParserClaimFails :
    cargoBinary "" = { cargoPackage := "", binary := "" } ∧
    cargoBinary "a.b.c" = { cargoPackage := "a", binary := "b" } ∧
    cargoBinary "a.b.c" ≠ { cargoPackage := "a", binary := "b.c" } := by
  decide

/-- C2 (amended): `cargoBinary` splits the handler at every separator and
keeps the first two segments.  For separator-free `a` and `b`, handler
`a.b` yields unit `a` and binary `b`; handler `a` alone yields unit and
binary both `a`; the empty handler is accepted and yields unit `""` and
binary `""` — the parser never fails. -/
theorem handlerParserAmended :
    (∀ a b : String, '.' ∉ a.data → '.' ∉ b.data →
      cargoBinary (a ++ "." ++ b) = { cargoPackage := a, binary := b }) ∧
    (∀ a : String, '.' ∉ a.data →
      cargoBinary a = { cargoPackage := a, binary := a }) ∧
    cargoBinary "" = { cargoPackage := "", binary := "" } ∧
    cargoBinary "a.b.c" = { cargoPackage := "a", binary := "b" } := by
  refine ⟨cargoBinary_two_segments, cargoBinary_no_sep, by decide, by decide⟩

/-- C2 witness: the amended parser specification evaluated on the concrete
handler `"app.bin"`. -/
theorem handlerParserAmended_witness :
    ('.' ∉ "app".data ∧ '.' ∉ "bin".data) ∧
    cargoBinary ("app" ++ "." ++ "bin") = { cargoPackage := "app", binary := "bin" } :=
  ⟨by decide, handlerParserAmended.1 "app" "bin" (by decide) (by decide)⟩

/-! ## C9 — binary-name non-emptiness -/

/-- C9, counterexample to the claim as stated: the parser raises nothing,
so every handler is accepted, and the handlers `""` and `"a."` both
produce an empty binary name. -/
theorem emptyBinaryNameReachable :
    (cargoBinary "").binary = "" ∧ (cargoBinary "a.").binary = "" := by
  decide

/-- C9 (amended): the binary name is non-empty whenever the segment that
determines it is non-empty: a separator-free non-empty handler, or a
handler `a.b` whose second segment `b` is non-empty. -/
theorem binaryNameNonEmptyAmended :
    (∀ a : String, '.' ∉ a.data → a ≠ "" → (cargoBinary a).binary ≠ "") ∧
    (∀ a b : String, '.' ∉ a.data → '.' ∉ b.data → b ≠ "" →
      (cargoBinary (a ++ "." ++ b)).binary ≠ "") := by
  constructor
  · intro a ha hne
    rw [cargoBinary_no_sep a ha]
    exact hne
  · intro a b ha hb hne
    rw [cargoBinary_two_segments a b ha hb]
    exact hne

/-- C9 witness: the amended statement evaluated on the concrete handlers
`"app"` and `"app.bin"`. -/
theorem binaryNameNonEmptyAmended_witness :
    ('.' ∉ "app".data ∧ "app" ≠ "") ∧ (cargoBinary "app").binary ≠ "" :=
  ⟨by decide, binaryNameNonEmptyAmended.1 "app" (by decide) (by decide)⟩

/-! ## C3 — configuration precedence -/

/-- C3, counterexample to the claim as stated: the `||` defaulting makes a
falsy per-function override lose.  A function overriding `dockerless` with
`false` against a global `dockerless: true` still builds in docker-less
mode (`buildLocally` is `true`, not the override value `false`), and a
per-function `dockerTag` supplied as `""` resolves to the global tag
rather than to the supplied override. -/
theorem overrideFalsyLoses :
    buildLocally { handler := "h", rust := some { dockerless := some false } }
        (mkCustom (some { dockerless := some true })) = true ∧
    effDockerTag (some { dockerTag := some "" })
        (mkCustom (some { dockerTag := some "global-tag" })) = "global-tag" := by
  decide

/-- C3 (amended): for every tunable key the per-function override wins
exactly when its value is truthy (a non-empty string, or `true` for
`dockerless`); a falsy or absent override falls through to the merged
global value (the global block's value when it supplies the key, the
built-in default otherwise — with `""` for `cargoFlags`, no default for
`profile`). -/
theorem configPrecedenceAmended (o g : RustConfig) :
    (∀ v, o.dockerTag = some v → v ≠ "" →
      effDockerTag (some o) (mkCustom (some g)) = v) ∧
    ((o.dockerTag = none ∨ o.dockerTag = some "") →
      effDockerTag (some o) (mkCustom (some g)) = g.dockerTag.getD DEFAULT_DOCKER_TAG) ∧
    (∀ v, o.dockerImage = some v → v ≠ "" →
      effDockerImage (some o) (mkCustom (some g)) = v) ∧
    ((o.dockerImage = none ∨ o.dockerImage = some "") →
      effDockerImage (some o) (mkCustom (some g)) = g.dockerImage.getD DEFAULT_DOCKER_IMAGE) ∧
    (∀ v, o.cargoFlags = some v → v ≠ "" →
      effCargoFlagsLocal (some o) (mkCustom (some g)) = v) ∧
    ((o.cargoFlags = none ∨ o.cargoFlags = some "") →
      effCargoFlagsLocal (some o) (mkCustom (some g)) = g.cargoFlags.getD "") ∧
    (o.dockerless = some true →
      buildLocally { handler := "h", rust := some o } (mkCustom (some g)) = true) ∧
    ((o.dockerless = none ∨ o.dockerless = some false) →
      buildLocally { handler := "h", rust := some o } (mkCustom (some g)) =
        g.dockerless.getD false) ∧
    (∀ v, o.profile = some v → v ≠ "" →
      effProfile (some o) (mkCustom (some g)) = some v) ∧
    ((o.profile = none ∨ o.profile = some "") →
      effProfile (some o) (mkCustom (some g)) = g.profile) := by
  refine ⟨?_, ?_, ?_, ?_, ?_, ?_, ?_, ?_, ?_, ?_⟩
  · intro v hv hne
    simp [effDockerTag, orEmptyObj, jsOr, hv, hne]
  · rintro (h | h) <;> simp [effDockerTag, orEmptyObj, jsOr, mkCustom, h]
  · intro v hv hne
    simp [effDockerImage, orEmptyObj, jsOr, hv, hne]
  · rintro (h | h) <;> simp [effDockerImage, orEmptyObj, jsOr, mkCustom, h]
  · intro v hv hne
    simp [effCargoFlagsLocal, orEmptyObj, jsOr, hv, hne]
  · rintro (h | h) <;>
      simp only [effCargoFlagsLocal, orEmptyObj, Option.getD_some, jsOr, mkCustom, h, jsOrStr] <;>
      cases hg : g.cargoFlags with
      | none => simp
      | some s =>
        by_cases hs : s = "" <;> simp [hs]
  · intro hv
    simp [buildLocally, orEmptyObj, jsOrB, hv]
  · rintro (h | h) <;> simp [buildLocally, orEmptyObj, jsOrB, mkCustom, h]
  · intro v hv hne
    simp [effProfile, orEmptyObj, jsOrOpt, hv, hne]
  · rintro (h | h) <;> simp [effProfile, orEmptyObj, jsOrOpt, mkCustom, h]

/-- C3 witness: the amended precedence evaluated at concrete blocks — an
override tag `"t"` beats a global tag `"g"`. -/
theorem configPrecedenceAmended_witness :
    (({ dockerTag := some "t" } : RustConfig).dockerTag = some "t" ∧ "t" ≠ "") ∧
    effDockerTag (some { dockerTag := some "t" }) (mkCustom (some { dockerTag := some "g" })) = "t" :=
  ⟨⟨rfl, by decide⟩,
    (configPrecedenceAmended { dockerTag := some "t" } { dockerTag := some "g" }).1 "t" rfl
      (by decide)⟩

/-! ## Orchestrator lemmas -/

theorem buildLoop_skips (w : World) (plugin : Plugin) (svc : Service) (found : Bool)
    (l : List String)
    (h : ∀ n ∈ l, ∃ f, getFunction svc n = some f ∧
      jsOrOpt f.runtime svc.providerRuntime ≠ some RUST_RUNTIME) :
    buildLoop w plugin svc found l = .ok found := by
  induction l generalizing found with
  | nil => rfl
  | cons n rest ih =>
    obtain ⟨f, hf, hrt⟩ := h n (List.mem_cons_self n rest)
    simp only [buildLoop, buildFuncStep, hf]
    rw [if_pos hrt]
    exact ih found (fun m hm => h m (List.mem_cons_of_mem n hm))

theorem buildLoop_referenceError (w : World) (plugin : Plugin) (svc : Service) (found : Bool)
    (l : List String)
    (hres : ∀ n ∈ l, (getFunction svc n).isSome)
    (hmatch : ∃ n ∈ l, ∃ f, getFunction svc n = some f ∧
      jsOrOpt f.runtime svc.providerRuntime = some RUST_RUNTIME) :
    buildLoop w plugin svc found l = .error (.referenceError "cargoPackage") := by
  induction l generalizing found with
  | nil =>
    obtain ⟨n, hn, _⟩ := hmatch
    exact absurd hn (List.not_mem_nil n)
  | cons n rest ih =>
    obtain ⟨f, hf⟩ := Option.isSome_iff_exists.mp (hres n (List.mem_cons_self n rest))
    by_cases hrt : jsOrOpt f.runtime svc.providerRuntime = some RUST_RUNTIME
    · simp only [buildLoop, buildFuncStep, hf]
      rw [if_neg (by simp [hrt])]
      rw [dif_neg (show "cargoPackage" ∉ buildScopeIdentifiers by decide)]
    · simp only [buildLoop, buildFuncStep, hf]
      rw [if_pos hrt]
      apply ih
      · exact fun m hm => hres m (List.mem_cons_of_mem n hm)
      · obtain ⟨m, hm, g, hg, hgr⟩ := hmatch
        rcases List.mem_cons.mp hm with rfl | hm'
        · rw [hf] at hg
          cases hg
          exact absurd hgr hrt
        · exact ⟨m, hm', g, hg, hgr⟩

/-! ## C1 — the undeclared `cargoPackage` identifier -/

/-- C1: on any pass over a supported provider in which some targeted
function's effective runtime is the rust marker, `build` reads the
identifier `cargoPackage` — which no enclosing scope declares (line 228
binds the property names `cargoBinary` and `binary`, not `cargoPackage`)
— and therefore throws the strict-mode ReferenceError while assembling
the executor call.  The outcome is the same for every world: no external
process result is ever consulted. -/
theorem buildThrowsReferenceError (w : World) (plugin : Plugin) (svc : Service) (opts : Options)
    (haws : svc.providerName = "aws")
    (hres : ∀ n ∈ functionsOf svc opts, (getFunction svc n).isSome)
    (hmatch : ∃ n ∈ functionsOf svc opts, ∃ f, getFunction svc n = some f ∧
      jsOrOpt f.runtime svc.providerRuntime = some RUST_RUNTIME) :
    "cargoPackage" ∉ buildScopeIdentifiers ∧
    build w plugin svc opts = .error (.referenceError "cargoPackage") ∧
    ∀ w' : World, build w' plugin svc opts = build w plugin svc opts := by
  have hloop : ∀ w'' : World,
      buildLoop w'' plugin svc false (functionsOf svc opts) =
        .error (.referenceError "cargoPackage") :=
    fun w'' => buildLoop_referenceError w'' plugin svc false _ hres hmatch
  refine ⟨by decide, ?_, ?_⟩
  · simp only [build, haws]
    rw [hloop w]
    simp
  · intro w'
    simp only [build]
    rw [hloop w, hloop w']

/-- C1 witness: a service with a single rust-runtime function; the pass
throws the ReferenceError for every world. -/
def worldOk : World :=
  { spawn := fun _ _ => { status := some 0 }
    readFile := fun _ => .ok ""
    writeFile := fun _ _ => .ok ()
    mkdir := fun _ => .ok ()
    procEnv := fun _ => none
    home := "/home/user" }

def svcOneRust : Service :=
  { providerName := "aws"
    functions := [("hello", { handler := "app.bin", runtime := some "rust" })] }

theorem buildThrowsReferenceError_witness :
    "cargoPackage" ∉ buildScopeIdentifiers ∧
    build worldOk (mkPlugin svcOneRust) svcOneRust {} = .error (.referenceError "cargoPackage") ∧
    ∀ w' : World,
      build w' (mkPlugin svcOneRust) svcOneRust {} =
        build worldOk (mkPlugin svcOneRust) svcOneRust {} :=
  buildThrowsReferenceError worldOk (mkPlugin svcOneRust) svcOneRust {} rfl (by decide)
    ⟨"hello", by decide,
      { handler := "app.bin", runtime := some "rust" }, by decide, by decide⟩

/-! ## C4 — success path never reached (code bug) -/

/-- C4 (code-bug evidence): on a service with a single rust function whose
executor invocation would succeed (every spawn in this world exits 0), the
pass throws the strict-mode ReferenceError before any executor runs, so
lines 251-262 never assign the artifact location and never rewrite the
runtime. -/
def svcBuildWouldSucceed : Service :=
  { providerName := "aws"
    functions := [("ok-func",
      { handler := "pkg.bin", runtime := some "rust",
        rust := some { dockerless := some true } })] }

theorem buildNeverReachesSuccessPath :
    build worldOk (mkPlugin svcBuildWouldSucceed) svcBuildWouldSucceed {} =
      .error (.referenceError "cargoPackage") := rfl

/-! ## C5 — fail-fast on executor failure never engages (code bug) -/

/-- C5 (code-bug evidence): on a service with two rust functions and a
world whose every spawn reports exit status 101, the pass aborts with the
ReferenceError — not with the `throw new Error(res.error)` of line 240
(which would be `buildFailed none` here) — because no executor is ever
invoked. -/
def worldFailing : World :=
  { spawn := fun _ _ => { status := some 101 }
    readFile := fun _ => .ok ""
    writeFile := fun _ _ => .ok ()
    mkdir := fun _ => .ok ()
    procEnv := fun _ => none
    home := "/home/user" }

def svcTwoRust : Service :=
  { providerName := "aws"
    functions := [("first", { handler := "a.b", runtime := some "rust" }),
                  ("second", { handler := "c", runtime := some "rust" })] }

theorem buildFailFastUnreachable :
    build worldFailing (mkPlugin svcTwoRust) svcTwoRust {} =
      .error (.referenceError "cargoPackage") ∧
    build worldFailing (mkPlugin svcTwoRust) svcTwoRust {} ≠
      .error (.buildFailed none) := by
  constructor
  · rfl
  · intro h
    rw [show build worldFailing (mkPlugin svcTwoRust) svcTwoRust {} =
        (.error (.referenceError "cargoPackage") : Except BuildError Service) from rfl] at h
    simp at h

/-! ## C6 — no matching functions -/

/-- C6: on a supported provider, when no targeted function's effective
runtime is the rust marker, the pass raises the no-matching-functions
error after the loop, and the outcome is identical for every world — no
build is ever attempted. -/
theorem noRustFunctionsRaises (w : World) (plugin : Plugin) (svc : Service) (opts : Options)
    (haws : svc.providerName = "aws")
    (hnone : ∀ n ∈ functionsOf svc opts, ∃ f, getFunction svc n = some f ∧
      jsOrOpt f.runtime svc.providerRuntime ≠ some RUST_RUNTIME) :
    build w plugin svc opts = .error .noRustFunctions ∧
    ∀ w' : World, build w' plugin svc opts = build w plugin svc opts := by
  have hloop : ∀ w'' : World,
      buildLoop w'' plugin svc false (functionsOf svc opts) = .ok false :=
    fun w'' => buildLoop_skips w'' plugin svc false _ hnone
  constructor
  · simp only [build, haws]
    rw [hloop w]
    simp
  · intro w'
    simp only [build]
    rw [hloop w, hloop w']

/-- C6 witness: a service whose only function runs another runtime. -/
def svcNoRust : Service :=
  { providerName := "aws"
    functions := [("js-func", { handler := "index.handler", runtime := some "nodejs12.x" })] }

theorem noRustFunctionsRaises_witness :
    build worldOk (mkPlugin svcNoRust) svcNoRust {} = .error .noRustFunctions ∧
    ∀ w' : World,
      build w' (mkPlugin svcNoRust) svcNoRust {} =
        build worldOk (mkPlugin svcNoRust) svcNoRust {} :=
  noRustFunctionsRaises worldOk (mkPlugin svcNoRust) svcNoRust {} rfl (by decide)

/-! ## C7 — executor error reporting -/

/-- C7, counterexample to the claim as stated: with a successful toolchain
run but a failing read of the produced binary, `localBuild` throws — the
`readFileSync` of line 119 stands outside every `try` block — so the
local executor does raise for a packaging I/O failure instead of
returning a BuildResult. -/
def worldReadFails : World :=
  { spawn := fun _ _ => { status := some 0 }
    readFile := fun _ => .error "ENOENT: no such file or directory"
    writeFile := fun _ _ => .ok ()
    mkdir := fun _ => .ok ()
    procEnv := fun _ => none
    home := "/home/user" }

theorem localBuildThrowsOnReadFailure :
    localBuild worldReadFails (mkCustom none) "linux" none "pkg" "bin" none =
      .error "ENOENT: no such file or directory" := rfl

/-- C7 (amended): `dockerBuild` never raises — it returns exactly the
process result as a BuildResult value — and `localBuild` returns both a
toolchain failure (the `spawnSync` result passed through) and an
archive-write failure (the `{err, status: 1}` object, carrying the I/O
error under `err` rather than `error`) as values; but a failure
*reading* the produced binary after a successful toolchain run
propagates as a thrown exception. -/
theorem executorsReturnBuildResults (w : World) (custom : Custom) (plat : String)
    (funcArgs : Option RustConfig) (pkg bin : String) (profile : Option String)
    (e contents : String)
    (hspawn : ∀ c a, w.spawn c a = { status := some 0 })
    (hread : ∀ p, w.readFile p = .ok contents)
    (hwrite : ∀ p c, w.writeFile p c = .error e) :
    localBuild w custom plat funcArgs pkg bin profile =
      .ok { err := some e, status := some 1 } ∧
    (∀ (w2 : World) (dockerPath : String) (pkg2 : Option String),
      dockerBuild w2 custom dockerPath funcArgs pkg2 bin profile =
        { error := (w2.spawn (jsOr (w2.procEnv "SLS_DOCKER_CLI") "docker")
            (dockerBuildArgs w2 custom dockerPath funcArgs pkg2 bin profile)).error,
          status := (w2.spawn (jsOr (w2.procEnv "SLS_DOCKER_CLI") "docker")
            (dockerBuildArgs w2 custom dockerPath funcArgs pkg2 bin profile)).status }) ∧
    (∀ (w3 : World) (st : Int), 0 < st →
      w3.spawn "cargo" (localBuildArgs custom plat funcArgs pkg profile) =
        { status := some st } →
      localBuild w3 custom plat funcArgs pkg bin profile =
        .ok { status := some st }) := by
  refine ⟨?_, ?_, ?_⟩
  · simp only [localBuild, hspawn, hread, hwrite]
    simp [statusGtZero]
  · intro w2 dockerPath pkg2
    rfl
  · intro w3 st hst hsp
    simp only [localBuild, hsp]
    simp [statusGtZero, hst]

/-- C7 witness: the amended behaviour at a concrete world whose archive
write fails with EACCES after a successful toolchain run. -/
def worldWriteFails : World :=
  { spawn := fun _ _ => { status := some 0 }
    readFile := fun _ => .ok "ELF"
    writeFile := fun _ _ => .error "EACCES: permission denied"
    mkdir := fun _ => .ok ()
    procEnv := fun _ => none
    home := "/home/user" }

theorem executorsReturnBuildResults_witness :
    localBuild worldWriteFails (mkCustom none) "linux" none "pkg" "bin" none =
      .ok { err := some "EACCES: permission denied", status := some 1 } :=
  (executorsReturnBuildResults worldWriteFails (mkCustom none) "linux" none "pkg" "bin" none
    "EACCES: permission denied" "ELF" (fun _ _ => rfl) (fun _ => rfl) (fun _ _ => rfl)).1

/-! ## C8 — placement of SLS_DOCKER_ARGS tokens -/

theorem jsOr_some_empty (v : String) : jsOr (some v) "" = v := by
  by_cases hv : v = "" <;> simp [jsOr, hv]

theorem filter_ne_empty_of_forall (l : List String) (h : ∀ x ∈ l, x ≠ "") :
    l.filter (fun i => i ≠ "") = l := by
  induction l with
  | nil => rfl
  | cons a t ih =>
    rw [List.filter_cons, if_pos (decide_eq_true (h a (List.mem_cons_self a t)))]
    rw [ih (fun x hx => h x (List.mem_cons_of_mem a hx))]

theorem dockerDefaultArgs_ne_empty (binary dockerPath cargoRegistry cargoDownloads : String) :
    ∀ x ∈ dockerDefaultArgs binary dockerPath cargoRegistry cargoDownloads, x ≠ "" := by
  intro x hx
  simp only [dockerDefaultArgs, List.mem_cons, List.not_mem_nil, or_false] at hx
  rcases hx with rfl | rfl | rfl | rfl | rfl | rfl | rfl | rfl | rfl | rfl | rfl
  · decide
  · decide
  · decide
  · decide
  · exact append_ne_empty_left "BIN=" binary (by decide)
  · decide
  · exact append_ne_empty_right dockerPath ":/code" (by decide)
  · decide
  · exact append_ne_empty_right cargoRegistry ":/root/.cargo/registry" (by decide)
  · decide
  · exact append_ne_empty_right cargoDownloads ":/root/.cargo/git" (by decide)

theorem profileCargoEnvArgs_ne_empty (custom : Custom) (funcArgs : Option RustConfig)
    (cargoPackage : Option String) (profile : Option String) :
    ∀ x ∈ profileCargoEnvArgs custom funcArgs cargoPackage profile, x ≠ "" := by
  intro x hx
  simp only [profileCargoEnvArgs, List.mem_append] at hx
  rcases hx with hx | hx
  · rcases profile with _ | p
    · simp at hx
    · dsimp only at hx
      by_cases hp : p ≠ ""
      · rw [if_pos hp] at hx
        simp only [List.mem_cons, List.not_mem_nil, or_false] at hx
        rcases hx with rfl | rfl
        · decide
        · exact append_ne_empty_left "PROFILE=" p (by decide)
      · rw [if_neg hp] at hx
        simp at hx
  · by_cases hne : dockerCargoFlags custom funcArgs cargoPackage ≠ ""
    · rw [if_pos hne] at hx
      simp only [List.mem_cons, List.not_mem_nil, or_false] at hx
      rcases hx with rfl | rfl
      · decide
      · exact append_ne_empty_left "CARGO_FLAGS=" _ (by decide)
    · rw [if_neg hne] at hx
      simp at hx

/-- C8: for every value of `SLS_DOCKER_ARGS`, its space-split tokens
(minus empty tokens, which the final `.filter((i) => i)` drops) appear
verbatim and contiguously in the container-runtime argument list,
directly after the fixed mount and `BIN` environment arguments and before
the conditional `PROFILE` / `CARGO_FLAGS` environment arguments and the
final `{image}:{tag}` reference. -/
theorem dockerArgsTokenPlacement (w : World) (custom : Custom) (dockerPath : String)
    (funcArgs : Option RustConfig) (pkg : Option String) (bin : String)
    (profile : Option String) (v : String)
    (henv : w.procEnv "SLS_DOCKER_ARGS" = some v) :
    dockerBuildArgs w custom dockerPath funcArgs pkg bin profile =
      dockerDefaultArgs bin dockerPath (pathJoin (cargoHomeOf w) "registry")
          (pathJoin (cargoHomeOf w) "git")
        ++ (jsSplit ' ' v).filter (fun i => i ≠ "")
        ++ profileCargoEnvArgs custom funcArgs pkg profile
        ++ [effDockerImage funcArgs custom ++ ":" ++ effDockerTag funcArgs custom] := by
  have himg : (effDockerImage funcArgs custom ++ ":" ++ effDockerTag funcArgs custom) ≠ "" :=
    append_ne_empty_left _ _ (append_ne_empty_right _ ":" (by decide))
  simp only [dockerBuildArgs, henv, jsOr_some_empty]
  rw [List.filter_append, List.filter_append, List.filter_append]
  rw [filter_ne_empty_of_forall _ (dockerDefaultArgs_ne_empty bin dockerPath _ _)]
  rw [filter_ne_empty_of_forall _ (profileCargoEnvArgs_ne_empty custom funcArgs pkg profile)]
  rw [filter_ne_empty_of_forall [_] (by intro x hx; simp at hx; rw [hx]; exact himg)]
  simp [List.append_assoc]

/-- C8 witness: `SLS_DOCKER_ARGS="-e FOO=1"` at a concrete world — the two
tokens sit between the fixed arguments and the conditional/image tail. -/
def worldDockerArgs : World :=
  { spawn := fun _ _ => { status := some 0 }
    readFile := fun _ => .ok ""
    writeFile := fun _ _ => .ok ()
    mkdir := fun _ => .ok ()
    procEnv := fun k => if k = "SLS_DOCKER_ARGS" then some "-e FOO=1" else none
    home := "/home/user" }

theorem dockerArgsTokenPlacement_witness :
    worldDockerArgs.procEnv "SLS_DOCKER_ARGS" = some "-e FOO=1" ∧
    dockerBuildArgs worldDockerArgs (mkCustom none) "/code" none none "bootstrap" none =
      dockerDefaultArgs "bootstrap" "/code"
          (pathJoin (cargoHomeOf worldDockerArgs) "registry")
          (pathJoin (cargoHomeOf worldDockerArgs) "git")
        ++ (jsSplit ' ' "-e FOO=1").filter (fun i => i ≠ "")
        ++ profileCargoEnvArgs (mkCustom none) none none none
        ++ [effDockerImage none (mkCustom none) ++ ":" ++ effDockerTag none (mkCustom none)] :=
  ⟨rfl, dockerArgsTokenPlacement worldDockerArgs (mkCustom none) "/code" none none "bootstrap"
    none "-e FOO=1" rfl⟩

/-! ## C10 — the package selector in the two invocations -/

/-- C10, counterexample to the claim as stated: the `-p <package>`
selector is NOT omitted from the local toolchain invocation — line 62
places `"-p", cargoPackage` right after `"build"`, and the assembled
argument list shows it. -/
theorem localArgsIncludeSelector :
    localBuildArgs (mkCustom none) "linux" none "my-package" none =
      ["build", "-p", "my-package", "--release"] := rfl

/-- C10 (amended): both executors carry the package selector — the local
toolchain argument list starts `build -p <package>`, and the container
invocation appends ` -p <package>` to the `CARGO_FLAGS` environment value
— although the orchestrator never delivers the parsed identifier to
either executor, since `build` throws the ReferenceError before the call. -/
theorem packageSelectorBothExecutors (custom : Custom) (plat : String)
    (funcArgs : Option RustConfig) (pkg : String) (profile : Option String)
    (hpkg : pkg ≠ "") :
    (localBuildArgs custom plat funcArgs pkg profile).take 3 = ["build", "-p", pkg] ∧
    (∀ (w : World) (dockerPath bin : String),
      effCargoFlagsDocker funcArgs custom = "" →
      ("CARGO_FLAGS=" ++ (" -p " ++ pkg)) ∈
        dockerBuildArgs w custom dockerPath funcArgs (some pkg) bin profile) := by
  constructor
  · simp only [localBuildArgs, List.cons_append, List.nil_append]
    rw [List.filter_cons, if_pos (by decide), List.filter_cons, if_pos (by decide),
      List.filter_cons, if_pos (decide_eq_true hpkg)]
    rfl
  · intro w dockerPath bin hflags
    have hne : (" -p " ++ pkg) ≠ "" := append_ne_empty_left " -p " pkg (by decide)
    have hdcf : dockerCargoFlags custom funcArgs (some pkg) = " -p " ++ pkg := by
      simp [dockerCargoFlags, hflags]
    have helem : ("CARGO_FLAGS=" ++ (" -p " ++ pkg)) ≠ "" :=
      append_ne_empty_left "CARGO_FLAGS=" _ (by decide)
    simp only [dockerBuildArgs, profileCargoEnvArgs, hdcf]
    rw [if_pos hne, List.mem_filter]
    refine ⟨?_, decide_eq_true helem⟩
    simp [List.mem_append]

/-- C10 witness: the amended statement at the concrete package
`"my-crate"`. -/
theorem packageSelectorBothExecutors_witness :
    "my-crate" ≠ "" ∧
    (localBuildArgs (mkCustom none) "linux" none "my-crate" none).take 3 =
      ["build", "-p", "my-crate"] :=
  ⟨by decide,
    (packageSelectorBothExecutors (mkCustom none) "linux" none "my-crate" none (by decide)).1⟩

end ServerlessRust
